import Mathlib

/-!
Verification of the multi-agent collaboration notebook
(`multi-agent-collaboration_Github_v1.ipynb`).

The notebook wires two LLM-backed agents ("assistant" / research and
"Chart Generator") and one tool node into a three-node LangGraph state
machine.  We embed the repository's own functions (`router`, `tool_node`,
`agent_node`, `python_repl`, the `workflow` wiring) shallowly:

* the LLM calls, the Tavily search tool's network call and the
  PythonREPL sandbox are opaque — they are function parameters;
* Python exceptions are modelled with `Except String`, the error payload
  standing for the raised exception (its `repr`);
* `json.loads` is modelled by a concrete recursive-descent parser
  `json_loads` over the JSON fragment exercised by the notebook
  (strings with common escapes, objects, arrays, booleans, null,
  integers); it returns `none` on malformed input, modelling the
  `JSONDecodeError` that `json.loads` raises there;
* LangGraph's execution semantics (state merging with the
  `operator.add` reducer on `messages`, conditional edges, `END`) are
  modelled from the spec's description of the framework.
-/

/-- Kind tag of a LangChain message (`type` in the Python objects). -/
inductive MessageKind where
  | human
  | ai
  | system
  | function
  | chat
deriving DecidableEq, Repr

/-- The `function_call` entry of a message's `additional_kwargs`:
a tool name and a JSON-encoded argument string. -/
structure FunctionCall where
  name : String
  arguments : String
deriving DecidableEq, Repr

/-- A LangChain message as the notebook uses it: a content string, an
optional `name`, and the optional `function_call` entry of
`additional_kwargs` (the only entry the notebook ever reads). -/
structure Message where
  kind : MessageKind
  content : String
  name : Option String
  function_call : Option FunctionCall
deriving DecidableEq, Repr

/-- The shared graph state (`AgentState` in the notebook): a list of
messages and the last-sender tag.  The sender is `Option String`
because at runtime the state is a dict and the initial input of
`graph.stream` omits the `sender` key. -/
structure AgentState where
  messages : List Message
  sender : Option String
deriving DecidableEq, Repr

/-- A partial state update returned by a node: new messages to append
through the `operator.add` reducer, and an optional new sender. -/
structure AgentUpdate where
  messages : List Message
  sender : Option String
deriving DecidableEq, Repr

/-- Modelled from the spec: LangGraph merges a node's returned update
into the shared state — `messages` is annotated with `operator.add`, so
the returned list is concatenated onto the existing one; `sender`
overwrites when present. -/
def applyUpdate (s : AgentState) (u : AgentUpdate) : AgentState :=
  { messages := s.messages ++ u.messages
    sender := match u.sender with
      | some n => some n
      | none => s.sender }

/-- Python's `needle in haystack` on lists of characters: `needle` is a
contiguous substring of `haystack`. -/
def infixCheck : List Char → List Char → Bool
  | pat, [] => pat.isEmpty
  | pat, c :: rest => pat.isPrefixOf (c :: rest) || infixCheck pat rest

/-- Python's `needle in haystack` on strings. -/
def pyIn (needle haystack : String) : Bool :=
  infixCheck needle.toList haystack.toList

/-- JSON values, restricted to the fragment the notebook exercises
(numbers are integers). -/
inductive Json where
  | null
  | bool (b : Bool)
  | num (n : Int)
  | str (s : String)
  | arr (elems : List Json)
  | obj (fields : List (String × Json))
deriving Repr

/-- JSON whitespace. -/
def isWs (c : Char) : Bool :=
  c = ' ' || c = '\n' || c = '\t' || c = '\r'

/-- Drop leading JSON whitespace. -/
def skipWs : List Char → List Char
  | [] => []
  | c :: cs => if isWs c then skipWs cs else c :: cs

/-- Parse the body of a JSON string literal (after the opening quote),
handling the common escapes; returns the decoded characters and the
rest of the input after the closing quote. -/
def parseStrChars : List Char → Option (List Char × List Char)
  | [] => none
  | '"' :: rest => some ([], rest)
  | '\\' :: rest =>
    match rest with
    | [] => none
    | c :: rest2 =>
      let table : List (Char × Char) :=
        [('"', '"'), ('\\', '\\'), ('/', '/'), ('n', '\n'),
         ('t', '\t'), ('r', '\r'), ('b', Char.ofNat 8), ('f', Char.ofNat 12)]
      match List.lookup c table with
      | none => none
      | some d =>
        match parseStrChars rest2 with
        | none => none
        | some (s, r) => some (d :: s, r)
  | c :: rest =>
    match parseStrChars rest with
    | none => none
    | some (s, r) => some (c :: s, r)

/-- Take a maximal run of decimal digits. -/
def takeDigits : List Char → List Char × List Char
  | [] => ([], [])
  | c :: cs =>
    if c.isDigit then
      let (d, r) := takeDigits cs
      (c :: d, r)
    else ([], c :: cs)

/-- Decimal digits to a natural number. -/
def digitsToNat (ds : List Char) : Nat :=
  ds.foldl (fun acc c => acc * 10 + (c.toNat - 48)) 0

/-- Parse an integer JSON number token (floats are outside the modelled
fragment and rejected). -/
def parseIntToken (cs : List Char) : Option (Int × List Char) :=
  let neg : Bool := cs.headD ' ' = '-'
  let body : List Char := if neg then cs.tail else cs
  match takeDigits body with
  | ([], _) => none
  | (ds, rest) =>
    match rest with
    | '.' :: _ => none
    | 'e' :: _ => none
    | 'E' :: _ => none
    | _ =>
      let n : Int := Int.ofNat (digitsToNat ds)
      some (if neg then -n else n, rest)

mutual

/-- Parse one JSON value; `fuel` bounds recursion depth. -/
def parseValue : Nat → List Char → Option (Json × List Char)
  | 0, _ => none
  | Nat.succ f, cs =>
    match skipWs cs with
    | '"' :: rest =>
      match parseStrChars rest with
      | some (s, r) => some (Json.str (String.mk s), r)
      | none => none
    | '{' :: rest =>
      (match skipWs rest with
       | '}' :: r => some (Json.obj [], r)
       | other => parseFields f other)
    | '[' :: rest =>
      (match skipWs rest with
       | ']' :: r => some (Json.arr [], r)
       | other => parseElems f other)
    | 't' :: 'r' :: 'u' :: 'e' :: r => some (Json.bool true, r)
    | 'f' :: 'a' :: 'l' :: 's' :: 'e' :: r => some (Json.bool false, r)
    | 'n' :: 'u' :: 'l' :: 'l' :: r => some (Json.null, r)
    | other =>
      match parseIntToken other with
      | some (n, r) => some (Json.num n, r)
      | none => none

/-- Parse the non-empty member list of a JSON object, up to and
including the closing brace. -/
def parseFields : Nat → List Char → Option (Json × List Char)
  | 0, _ => none
  | Nat.succ f, cs =>
    match skipWs cs with
    | '"' :: rest =>
      match parseStrChars rest with
      | none => none
      | some (k, r1) =>
        match skipWs r1 with
        | ':' :: r2 =>
          match parseValue f r2 with
          | none => none
          | some (v, r3) =>
            match skipWs r3 with
            | ',' :: r4 =>
              (match parseFields f r4 with
               | some (Json.obj fs, r5) => some (Json.obj ((String.mk k, v) :: fs), r5)
               | _ => none)
            | '}' :: r4 => some (Json.obj [(String.mk k, v)], r4)
            | _ => none
        | _ => none
    | _ => none

/-- Parse the non-empty element list of a JSON array, up to and
including the closing bracket. -/
def parseElems : Nat → List Char → Option (Json × List Char)
  | 0, _ => none
  | Nat.succ f, cs =>
    match parseValue f cs with
    | none => none
    | some (v, r1) =>
      match skipWs r1 with
      | ',' :: r2 =>
        (match parseElems f r2 with
         | some (Json.arr es, r3) => some (Json.arr (v :: es), r3)
         | _ => none)
      | ']' :: r2 => some (Json.arr [v], r2)
      | _ => none

end

/-- Modelled from the spec: Python's `json.loads` on the JSON fragment
the notebook exercises.  `none` models the `JSONDecodeError` exception
raised on malformed input.  The fuel `s.length + 1` dominates the
recursion depth of any input of that length. -/
def json_loads (s : String) : Option Json :=
  match parseValue (s.length + 1) s.toList with
  | some (j, rest) => if skipWs rest = [] then some j else none
  | none => none

/-- Python's `len` on a deserialized JSON value: defined on dicts,
lists and strings, a `TypeError` otherwise. -/
def pyLen : Json → Except String Nat
  | Json.obj fs => Except.ok fs.length
  | Json.arr xs => Except.ok xs.length
  | Json.str s => Except.ok s.length
  | _ => Except.error "TypeError: object has no len()"

/-- Python's `key in value` on a deserialized JSON value: key lookup on
dicts, membership on lists, substring on strings, a `TypeError`
otherwise. -/
def pyContains (key : String) : Json → Except String Bool
  | Json.obj fs => Except.ok (fs.any fun p => p.1 == key)
  | Json.arr xs =>
    Except.ok (xs.any fun x =>
      match x with
      | Json.str s => s == key
      | _ => false)
  | Json.str s => Except.ok (pyIn key s)
  | _ => Except.error "TypeError: argument is not iterable"

/-- Python's `next(iter(value.values()))`: the first value of a dict,
`StopIteration` on an empty dict, `AttributeError` on a non-dict. -/
def pyFirstValue : Json → Except String Json
  | Json.obj ((_, v) :: _) => Except.ok v
  | Json.obj [] => Except.error "StopIteration"
  | _ => Except.error "AttributeError: object has no attribute values"

/-- The single-argument shorthand of `tool_node`:
`if len(tool_input) == 1 and "__arg1" in tool_input:
   tool_input = next(iter(tool_input.values()))`,
with Python's short-circuit evaluation of `and`. -/
def singleArgShortcut (j : Json) : Except String Json :=
  match pyLen j with
  | Except.error e => Except.error e
  | Except.ok n =>
    if n = 1 then
      match pyContains "__arg1" j with
      | Except.error e => Except.error e
      | Except.ok b => if b then pyFirstValue j else Except.ok j
    else Except.ok j

/-- The notebook's `python_repl` tool body.  `repl_run` is the opaque
`PythonREPL.run`; an `Except.error e` models a raised exception with
`repr` equal to `e` (the `except BaseException` branch). -/
def python_repl (repl_run : String → Except String String) (code : String) : String :=
  match repl_run code with
  | Except.error e => "Failed to execute. Error: " ++ e
  | Except.ok result =>
    "Succesfully executed:\n```python\n" ++ code ++ "\n```\nStdout: " ++ result

/-- Modelled from the spec: LangGraph's `ToolExecutor` over the two
registered tools `tools = [tavily_tool, python_repl]`.  `tavily_run` is
the opaque Tavily search call, already composed with `str`;
`repl_run` is the opaque `PythonREPL.run`.  The `python_repl` tool
takes its single `code` argument either by value or as a one-key dict;
an unknown name yields the executor's invalid-tool message. -/
def tool_executor_invoke (tavily_run : Json → Except String String)
    (repl_run : String → Except String String)
    (name : String) (input : Json) : Except String String :=
  if name = "tavily_search_results_json" then tavily_run input
  else if name = "python_repl" then
    match input with
    | Json.str code => Except.ok (python_repl repl_run code)
    | Json.obj [("code", Json.str code)] => Except.ok (python_repl repl_run code)
    | _ => Except.error "ValidationError"
  else
    Except.ok (name ++ " is not a valid tool, try one of [tavily_search_results_json, python_repl].")

/-- The notebook's `tool_node`: reads the last message's
`function_call`, deserializes its `arguments` with `json.loads`,
applies the single-argument shorthand, invokes the named tool and
returns an update whose only key is `messages`, holding one
`FunctionMessage`.  `Except.error` models a raised exception. -/
def tool_node (execTool : String → Json → Except String String)
    (state : AgentState) : Except String AgentUpdate :=
  match state.messages.getLast? with
  | none => Except.error "IndexError: list index out of range"
  | some last =>
    match last.function_call with
    | none => Except.error "KeyError: function_call"
    | some fc =>
      match json_loads fc.arguments with
      | none => Except.error "JSONDecodeError"
      | some parsed =>
        match singleArgShortcut parsed with
        | Except.error e => Except.error e
        | Except.ok tool_input =>
          match execTool fc.name tool_input with
          | Except.error e => Except.error e
          | Except.ok response =>
            Except.ok
              { messages := [{ kind := MessageKind.function
                               content := fc.name ++ " response: " ++ response
                               name := some fc.name
                               function_call := none }]
                sender := none }

/-- The notebook's `agent_node` helper: invoke the agent (opaque LLM
pipeline `invoke`), re-wrap a non-`FunctionMessage` result as a
`HumanMessage` keeping content and `additional_kwargs` but carrying the
node's `name`, and return the update that appends it and sets the
sender tag. -/
def agent_node (invoke : AgentState → Message) (name : String)
    (state : AgentState) : AgentUpdate :=
  let result := invoke state
  let result :=
    if result.kind = MessageKind.function then result
    else { result with kind := MessageKind.human, name := some name }
  { messages := [result], sender := some name }

/-- The notebook's `router`: `call_tool` when the last message's
`additional_kwargs` has a `function_call`, `end` when its content
contains the substring `FINAL ANSWER`, `continue` otherwise; an empty
message list raises `IndexError` on `messages[-1]`. -/
def router (state : AgentState) : Except String String :=
  match state.messages.getLast? with
  | none => Except.error "IndexError: list index out of range"
  | some last =>
    if last.function_call.isSome then Except.ok "call_tool"
    else if pyIn "FINAL ANSWER" last.content then Except.ok "end"
    else Except.ok "continue"

/-- LangGraph's `END` sentinel node name. -/
def ENDNode : String := "__end__"

/-- The branch map of the conditional edge out of `assistant`. -/
def assistant_edges : List (String × String) :=
  [("continue", "Chart Generator"), ("call_tool", "call_tool"), ("end", ENDNode)]

/-- The branch map of the conditional edge out of `Chart Generator`. -/
def chart_edges : List (String × String) :=
  [("continue", "assistant"), ("call_tool", "call_tool"), ("end", ENDNode)]

/-- The branch map of the conditional edge out of `call_tool`, keyed on
the sender tag (`lambda x: x["sender"]`). -/
def tool_edges : List (String × String) :=
  [("assistant", "assistant"), ("Chart Generator", "Chart Generator")]

/-- The graph the notebook builds: its node names and entry point. -/
structure CompiledGraph where
  nodes : List String
  entry : String
deriving DecidableEq, Repr

/-- The notebook's `workflow`: nodes `assistant`, `Chart Generator`,
`call_tool`, entry point `assistant`. -/
def workflow : CompiledGraph :=
  { nodes := ["assistant", "Chart Generator", "call_tool"]
    entry := "assistant" }

/-- The opaque environment of the graph: the two agents' LLM pipelines
and the two tools' effectful cores. -/
structure Oracles where
  research_invoke : AgentState → Message
  chart_invoke : AgentState → Message
  tavily_run : Json → Except String String
  repl_run : String → Except String String

/-- Modelled from the spec: executing one named node of the compiled
graph on the shared state and merging its update. -/
def stepNode (o : Oracles) (node : String) (s : AgentState) :
    Except String AgentState :=
  if node = "assistant" then
    Except.ok (applyUpdate s (agent_node o.research_invoke "assistant" s))
  else if node = "Chart Generator" then
    Except.ok (applyUpdate s (agent_node o.chart_invoke "Chart Generator" s))
  else if node = "call_tool" then
    match tool_node (tool_executor_invoke o.tavily_run o.repl_run) s with
    | Except.error e => Except.error e
    | Except.ok u => Except.ok (applyUpdate s u)
  else Except.error "unknown node"

/-- Modelled from the spec: evaluating the conditional edge out of a
node on the updated state, through the notebook's branch maps.  A
missing `sender` key or an unmapped branch raises. -/
def routeFrom (node : String) (s : AgentState) : Except String String :=
  if node = "assistant" then
    match router s with
    | Except.error e => Except.error e
    | Except.ok r =>
      match List.lookup r assistant_edges with
      | some t => Except.ok t
      | none => Except.error "KeyError: unknown branch"
  else if node = "Chart Generator" then
    match router s with
    | Except.error e => Except.error e
    | Except.ok r =>
      match List.lookup r chart_edges with
      | some t => Except.ok t
      | none => Except.error "KeyError: unknown branch"
  else if node = "call_tool" then
    match s.sender with
    | none => Except.error "KeyError: sender"
    | some snd =>
      match List.lookup snd tool_edges with
      | some t => Except.ok t
      | none => Except.error "KeyError: unknown branch"
  else Except.error "unknown node"

/-- Modelled from the spec: running the compiled graph from a node —
execute the node, evaluate its conditional edge, stop at `END`; running
out of fuel models the `recursion_limit` error. -/
def runGraph (o : Oracles) : Nat → String → AgentState → Except String AgentState
  | 0, _, _ => Except.error "GraphRecursionError"
  | Nat.succ n, node, s =>
    match stepNode o node s with
    | Except.error e => Except.error e
    | Except.ok s1 =>
      match routeFrom node s1 with
      | Except.error e => Except.error e
      | Except.ok next =>
        if next = ENDNode then Except.ok s1 else runGraph o n next s1

/-! ### Helper lemmas -/

/-- A pattern longer than the searched list is never a substring. -/
theorem infixCheck_false_of_longer (pat : List Char) :
    ∀ s : List Char, s.length < pat.length → infixCheck pat s = false := by
  intro s
  induction s with
  | nil =>
    intro h
    cases pat with
    | nil => exact absurd h (by simp)
    | cons c cs => simp [infixCheck, List.isEmpty]
  | cons c rest ih =>
    intro h
    have h1 : rest.length < pat.length := Nat.lt_of_le_of_lt (Nat.le_succ _) h
    have h2 : pat.isPrefixOf (c :: rest) = false := by
      by_contra hb
      have hp : pat <+: c :: rest := List.isPrefixOf_iff_prefix.mp (by
        cases hx : pat.isPrefixOf (c :: rest) with
        | true => rfl
        | false => exact absurd hx hb)
      have := hp.length_le
      omega
    simp [infixCheck, h2, ih h1]

/-- A deserialized string argument passes the single-argument shorthand
unchanged: a one-character string cannot contain `__arg1`. -/
theorem singleArgShortcut_str (code : String) :
    singleArgShortcut (Json.str code) = Except.ok (Json.str code) := by
  unfold singleArgShortcut pyLen
  by_cases h : code.length = 1
  · have hfalse : pyIn "__arg1" code = false := by
      apply infixCheck_false_of_longer
      have : code.toList.length = code.length := rfl
      simp [this, h]
    simp [h, pyContains, hfalse]
  · simp [h]

/-- The `router` answers `end` only on a state whose last message has no
`function_call` and whose content contains `FINAL ANSWER`. -/
theorem router_end_requires (s : AgentState) (h : router s = Except.ok "end") :
    ∃ last, s.messages.getLast? = some last ∧ last.function_call = none ∧
      pyIn "FINAL ANSWER" last.content = true := by
  unfold router at h
  split at h
  · exact absurd h (by simp)
  next last heq =>
    refine ⟨last, heq, ?_⟩
    split at h
    · simp at h
    next hfc =>
      have hnone : last.function_call = none := by
        simpa [Option.not_isSome_iff_eq_none] using hfc
      split at h
      next hp => exact ⟨hnone, hp⟩
      · simp at h

/-- Looking up `END` in an agent's branch map forces the `end` branch. -/
theorem lookup_edges_end_eq (r target : String) (htarget : target ≠ ENDNode)
    (h : List.lookup r [("continue", target), ("call_tool", "call_tool"), ("end", ENDNode)] =
      some ENDNode) : r = "end" := by
  simp only [List.lookup] at h
  cases hb1 : r == "continue" with
  | false =>
    cases hb2 : r == "call_tool" with
    | false =>
      cases hb3 : r == "end" with
      | false => simp [hb1, hb2, hb3] at h
      | true => exact eq_of_beq hb3
    | true => simp [hb1, hb2, ENDNode] at h
  | true =>
    simp only [hb1] at h
    exact absurd (Option.some.inj h) htarget

/-- The branch map out of `call_tool` never targets `END`. -/
theorem lookup_tool_edges_ne_end (snd t : String)
    (h : List.lookup snd tool_edges = some t) : t ≠ ENDNode := by
  simp only [tool_edges, List.lookup] at h
  cases hb1 : snd == "assistant" with
  | false =>
    cases hb2 : snd == "Chart Generator" with
    | false => simp [hb1, hb2] at h
    | true =>
      simp only [hb1, hb2] at h
      rw [← Option.some.inj h]
      simp [ENDNode]
  | true =>
    simp only [hb1] at h
    rw [← Option.some.inj h]
    simp [ENDNode]

/-- The conditional edges reach `END` only through the router's `end`
branch, hence only from a state whose last message has no function call
and contains `FINAL ANSWER`. -/
theorem routeFrom_end_requires (node : String) (s : AgentState)
    (h : routeFrom node s = Except.ok ENDNode) :
    ∃ last, s.messages.getLast? = some last ∧ last.function_call = none ∧
      pyIn "FINAL ANSWER" last.content = true := by
  unfold routeFrom at h
  split at h
  · split at h
    · exact absurd h (by simp)
    next r hr =>
      split at h
      next t hlk =>
        have ht : t = ENDNode := Except.ok.inj h
        have hrend : r = "end" := by
          refine lookup_edges_end_eq r "Chart Generator" (by simp [ENDNode]) ?_
          simpa [assistant_edges, ht] using hlk
        exact router_end_requires s (hrend ▸ hr)
      · exact absurd h (by simp)
  · split at h
    · split at h
      · exact absurd h (by simp)
      next r hr =>
        split at h
        next t hlk =>
          have ht : t = ENDNode := Except.ok.inj h
          have hrend : r = "end" := by
            refine lookup_edges_end_eq r "assistant" (by simp [ENDNode]) ?_
            simpa [chart_edges, ht] using hlk
          exact router_end_requires s (hrend ▸ hr)
        · exact absurd h (by simp)
    · split at h
      · split at h
        · exact absurd h (by simp)
        next snd hsnd =>
          split at h
          next t hlk =>
            have ht : t = ENDNode := Except.ok.inj h
            exact absurd ht (lookup_tool_edges_ne_end snd t hlk)
          · exact absurd h (by simp)
      · exact absurd h (by simp)

/-- Any successful `tool_node` run produces exactly one
`FunctionMessage` — named after the invoked tool and wrapping its
response — and no `sender` entry. -/
theorem tool_node_ok_shape (execTool : String → Json → Except String String)
    (s : AgentState) (u : AgentUpdate)
    (h : tool_node execTool s = Except.ok u) :
    ∃ last fc response, s.messages.getLast? = some last ∧
      last.function_call = some fc ∧
      u = { messages := [{ kind := MessageKind.function
                           content := fc.name ++ " response: " ++ response
                           name := some fc.name
                           function_call := none }]
            sender := none } := by
  unfold tool_node at h
  split at h
  · exact absurd h (by simp)
  next last heq =>
    split at h
    · exact absurd h (by simp)
    next fc hfc =>
      split at h
      · exact absurd h (by simp)
      next parsed hparsed =>
        split at h
        · exact absurd h (by simp)
        next ti hti =>
          split at h
          · exact absurd h (by simp)
          next response hresp =>
            exact ⟨last, fc, response, heq, hfc, (Except.ok.inj h).symm⟩

/-! ### Claims -/

/-- C1: on every state with a non-empty message list the router returns
exactly one of the three outcomes — `call_tool` iff the last message's
`additional_kwargs` has a `function_call`, `end` iff it has none and the
content contains `FINAL ANSWER`, `continue` iff it has none and the
content does not. -/
theorem router_three_outcomes (s : AgentState) (last : Message)
    (hlast : s.messages.getLast? = some last) :
    (∃ r, router s = Except.ok r ∧ (r = "call_tool" ∨ r = "end" ∨ r = "continue"))
    ∧ (router s = Except.ok "call_tool" ↔ last.function_call.isSome = true)
    ∧ (router s = Except.ok "end" ↔
        (last.function_call = none ∧ pyIn "FINAL ANSWER" last.content = true))
    ∧ (router s = Except.ok "continue" ↔
        (last.function_call = none ∧ pyIn "FINAL ANSWER" last.content = false)) := by
  unfold router
  rw [hlast]
  cases hfc : last.function_call with
  | some fc => simp [hfc]
  | none =>
    cases hp : pyIn "FINAL ANSWER" last.content with
    | true => simp [hfc, hp]
    | false => simp [hfc, hp]

/-- C1 witness: a concrete final-answer state routes to `end`. -/
theorem router_three_outcomes_witness :
    router { messages := [{ kind := MessageKind.ai, content := "FINAL ANSWER: 42",
                            name := none, function_call := none }], sender := none } =
      Except.ok "end" :=
  (router_three_outcomes
      { messages := [{ kind := MessageKind.ai, content := "FINAL ANSWER: 42",
                       name := none, function_call := none }], sender := none }
      { kind := MessageKind.ai, content := "FINAL ANSWER: 42",
        name := none, function_call := none }
      rfl).2.2.1.mpr ⟨rfl, by decide⟩

/-- C9: the function-call check takes precedence — a last message with
both a `function_call` and `FINAL ANSWER` in its content routes to
`call_tool`, not `end`. -/
theorem router_function_call_precedence (s : AgentState) (last : Message)
    (fc : FunctionCall) (hlast : s.messages.getLast? = some last)
    (hfc : last.function_call = some fc)
    (hfinal : pyIn "FINAL ANSWER" last.content = true) :
    router s = Except.ok "call_tool" := by
  unfold router
  rw [hlast]
  simp [hfc]

/-- C9 witness: a concrete message carrying both a function call and
`FINAL ANSWER` routes to `call_tool`. -/
theorem router_function_call_precedence_witness :
    router { messages := [{ kind := MessageKind.ai, content := "FINAL ANSWER: 42",
                            name := none,
                            function_call := some { name := "python_repl",
                                                    arguments := "\"print(1)\"" } }],
             sender := none } = Except.ok "call_tool" :=
  router_function_call_precedence
    { messages := [{ kind := MessageKind.ai, content := "FINAL ANSWER: 42",
                     name := none,
                     function_call := some { name := "python_repl",
                                             arguments := "\"print(1)\"" } }],
      sender := none }
    { kind := MessageKind.ai, content := "FINAL ANSWER: 42", name := none,
      function_call := some { name := "python_repl", arguments := "\"print(1)\"" } }
    { name := "python_repl", arguments := "\"print(1)\"" }
    rfl rfl (by decide)

/-- C4: the compiled graph reaches `END` only from a state whose last
message contains the substring `FINAL ANSWER` (and carries no
`function_call`): whenever a run terminates, the final state's last
message satisfies the termination condition. -/
theorem graph_end_requires_final_answer (o : Oracles) (n : Nat) (node : String)
    (s final : AgentState) (h : runGraph o n node s = Except.ok final) :
    ∃ last, final.messages.getLast? = some last ∧ last.function_call = none ∧
      pyIn "FINAL ANSWER" last.content = true := by
  induction n generalizing node s with
  | zero => exact absurd h (by simp [runGraph])
  | succ n ih =>
    rw [runGraph] at h
    split at h
    · exact absurd h (by simp)
    next s1 hstep =>
      split at h
      · exact absurd h (by simp)
      next next hroute =>
        split at h
        next hend =>
          have hfinal : s1 = final := Except.ok.inj h
          subst hfinal
          exact routeFrom_end_requires node s1 (hend ▸ hroute)
        · exact ih next s1 h

/-- A concrete environment for witnesses: both agents immediately
produce a final answer, both tools succeed. -/
def oracles0 : Oracles :=
  { research_invoke := fun _ =>
      { kind := MessageKind.ai, content := "FINAL ANSWER: 42",
        name := none, function_call := none }
    chart_invoke := fun _ =>
      { kind := MessageKind.ai, content := "FINAL ANSWER: 42",
        name := none, function_call := none }
    tavily_run := fun _ => Except.ok "results"
    repl_run := fun c => Except.ok ("ran " ++ c) }

/-- The initial input of `graph.stream`: one `HumanMessage`, no sender. -/
def init0 : AgentState :=
  { messages := [{ kind := MessageKind.human, content := "draw a chart",
                   name := none, function_call := none }]
    sender := none }

/-- The state in which a run of `oracles0` from `init0` terminates. -/
def final0 : AgentState :=
  { messages := [{ kind := MessageKind.human, content := "draw a chart",
                   name := none, function_call := none },
                 { kind := MessageKind.human, content := "FINAL ANSWER: 42",
                   name := some "assistant", function_call := none }]
    sender := some "assistant" }

/-- C4 witness: a concrete terminating run ends in a state whose last
message contains `FINAL ANSWER`. -/
theorem graph_end_requires_final_answer_witness :
    ∃ last, final0.messages.getLast? = some last ∧ last.function_call = none ∧
      pyIn "FINAL ANSWER" last.content = true :=
  graph_end_requires_final_answer oracles0 2 "assistant" init0 final0 (by rfl)

/-- C3: the graph has exactly the three nodes `assistant`,
`Chart Generator`, `call_tool`, its entry point is `assistant`, and
after an agent turn the conditional edge sends `call_tool` to the tool
node, `continue` to the other agent, and `end` to `END`. -/
theorem workflow_structure :
    workflow.nodes = ["assistant", "Chart Generator", "call_tool"]
    ∧ workflow.nodes.length = 3
    ∧ workflow.entry = "assistant"
    ∧ (∀ s, router s = Except.ok "call_tool" →
        routeFrom "assistant" s = Except.ok "call_tool" ∧
        routeFrom "Chart Generator" s = Except.ok "call_tool")
    ∧ (∀ s, router s = Except.ok "continue" →
        routeFrom "assistant" s = Except.ok "Chart Generator" ∧
        routeFrom "Chart Generator" s = Except.ok "assistant")
    ∧ (∀ s, router s = Except.ok "end" →
        routeFrom "assistant" s = Except.ok ENDNode ∧
        routeFrom "Chart Generator" s = Except.ok ENDNode) := by
  refine ⟨rfl, rfl, rfl, ?_, ?_, ?_⟩ <;> intro s h <;>
    exact ⟨by simp [routeFrom, h, assistant_edges, List.lookup],
           by simp [routeFrom, h, chart_edges, List.lookup]⟩

/-- A state whose last message carries a `function_call`, used to
exercise the `call_tool` branch. -/
def callState0 : AgentState :=
  { messages := [{ kind := MessageKind.ai, content := "",
                   name := none,
                   function_call := some { name := "python_repl",
                                           arguments := "\x7b\"__arg1\": \"print(1+1)\"\x7d" } }]
    sender := some "Chart Generator" }

/-- C3 witness: the structural facts, and the three branch transfers
exercised on concrete states. -/
theorem workflow_structure_witness :
    workflow.nodes.length = 3
    ∧ workflow.entry = "assistant"
    ∧ routeFrom "assistant" callState0 = Except.ok "call_tool"
    ∧ routeFrom "assistant" init0 = Except.ok "Chart Generator"
    ∧ routeFrom "Chart Generator" final0 = Except.ok ENDNode :=
  ⟨workflow_structure.2.1,
   workflow_structure.2.2.1,
   (workflow_structure.2.2.2.1 callState0 (by rfl)).1,
   (workflow_structure.2.2.2.2.1 init0 (by rfl)).1,
   (workflow_structure.2.2.2.2.2 final0 (by rfl)).2⟩

/-- C7: the shared state is exactly a message list plus a sender tag,
and each agent node's update sets the sender to its own name, so after
an agent turn the sender names that agent. -/
theorem state_shape_and_sender :
    (∀ s : AgentState, s = AgentState.mk s.messages s.sender)
    ∧ (∀ invoke name s, (agent_node invoke name s).sender = some name)
    ∧ (∀ o s s1, stepNode o "assistant" s = Except.ok s1 →
        s1.sender = some "assistant")
    ∧ (∀ o s s1, stepNode o "Chart Generator" s = Except.ok s1 →
        s1.sender = some "Chart Generator") := by
  refine ⟨fun s => rfl, fun invoke name s => rfl, ?_, ?_⟩
  · intro o s s1 h
    have h1 : s1 = applyUpdate s (agent_node o.research_invoke "assistant" s) := by
      simpa [stepNode] using h.symm
    subst h1
    rfl
  · intro o s s1 h
    have h1 : s1 = applyUpdate s (agent_node o.chart_invoke "Chart Generator" s) := by
      simpa [stepNode] using h.symm
    subst h1
    rfl

/-- C7 witness: a concrete assistant turn tags the state with the
assistant's name. -/
theorem state_shape_and_sender_witness :
    init0 = AgentState.mk init0.messages init0.sender
    ∧ (agent_node oracles0.research_invoke "assistant" init0).sender = some "assistant"
    ∧ final0.sender = some "assistant" :=
  ⟨state_shape_and_sender.1 init0,
   state_shape_and_sender.2.1 oracles0.research_invoke "assistant" init0,
   state_shape_and_sender.2.2.1 oracles0 init0 final0 (by rfl)⟩

/-- C8: the tool node's update carries no `sender` entry, the merged
state keeps the previous sender, and the conditional edge out of
`call_tool` therefore routes back to the agent that invoked the tool. -/
theorem tool_node_preserves_sender (execTool : String → Json → Except String String)
    (s : AgentState) (u : AgentUpdate) (h : tool_node execTool s = Except.ok u) :
    u.sender = none ∧ (applyUpdate s u).sender = s.sender
    ∧ (∀ snd, s.sender = some snd → snd = "assistant" ∨ snd = "Chart Generator" →
        routeFrom "call_tool" (applyUpdate s u) = Except.ok snd) := by
  obtain ⟨last, fc, response, hlast, hfc, hu⟩ := tool_node_ok_shape execTool s u h
  subst hu
  refine ⟨rfl, rfl, ?_⟩
  intro snd hsnd hor
  rcases hor with h1 | h1 <;> subst h1 <;>
    simp [routeFrom, applyUpdate, hsnd, tool_edges, List.lookup]

/-- The update the tool node produces on `callState0` under `oracles0`. -/
def toolUpdate0 : AgentUpdate :=
  { messages := [{ kind := MessageKind.function
                   content := "python_repl response: Succesfully executed:\n```python\nprint(1+1)\n```\nStdout: ran print(1+1)"
                   name := some "python_repl"
                   function_call := none }]
    sender := none }

/-- C8 witness: a concrete tool call leaves the sender untouched and
routes back to `Chart Generator`. -/
theorem tool_node_preserves_sender_witness :
    toolUpdate0.sender = none
    ∧ (applyUpdate callState0 toolUpdate0).sender = callState0.sender
    ∧ routeFrom "call_tool" (applyUpdate callState0 toolUpdate0) =
        Except.ok "Chart Generator" :=
  have h := tool_node_preserves_sender
    (tool_executor_invoke oracles0.tavily_run oracles0.repl_run)
    callState0 toolUpdate0 (by rfl)
  ⟨h.1, h.2.1, h.2.2 "Chart Generator" rfl (Or.inr rfl)⟩

/-- C10: updates are append-only — each agent node returns exactly one
new message, a successful tool node returns exactly one
`FunctionMessage`, the reducer concatenates, and every successful node
step extends the message list by exactly one message, altering none. -/
theorem messages_append_only :
    (∀ invoke name s, (agent_node invoke name s).messages.length = 1)
    ∧ (∀ execTool s u, tool_node execTool s = Except.ok u →
        ∃ m, u.messages = [m] ∧ m.kind = MessageKind.function)
    ∧ (∀ s u, (applyUpdate s u).messages = s.messages ++ u.messages)
    ∧ (∀ o node s s1, stepNode o node s = Except.ok s1 →
        ∃ m, s1.messages = s.messages ++ [m]) := by
  refine ⟨fun invoke name s => rfl, ?_, fun s u => rfl, ?_⟩
  · intro execTool s u h
    obtain ⟨last, fc, response, hlast, hfc, hu⟩ := tool_node_ok_shape execTool s u h
    subst hu
    exact ⟨_, rfl, rfl⟩
  · intro o node s s1 h
    unfold stepNode at h
    split at h
    · exact ⟨_, by rw [← Except.ok.inj h]; rfl⟩
    · split at h
      · exact ⟨_, by rw [← Except.ok.inj h]; rfl⟩
      · split at h
        · split at h
          · exact absurd h (by simp)
          next u htool =>
            obtain ⟨last, fc, response, hlast, hfc, hu⟩ :=
              tool_node_ok_shape _ s u htool
            subst hu
            exact ⟨_, by rw [← Except.ok.inj h]; rfl⟩
        · exact absurd h (by simp)

/-- C10 witness: one concrete agent turn and one concrete tool turn
each append exactly one message. -/
theorem messages_append_only_witness :
    (agent_node oracles0.research_invoke "assistant" init0).messages.length = 1
    ∧ (∃ m, toolUpdate0.messages = [m] ∧ m.kind = MessageKind.function)
    ∧ (∃ m, final0.messages = init0.messages ++ [m]) :=
  ⟨messages_append_only.1 oracles0.research_invoke "assistant" init0,
   messages_append_only.2.1
     (tool_executor_invoke oracles0.tavily_run oracles0.repl_run)
     callState0 toolUpdate0 (by rfl),
   messages_append_only.2.2.2 oracles0 "assistant" init0 final0 (by rfl)⟩

/-- C2: the tool node deserializes the `arguments` JSON, unwraps a
single-key `__arg1` object to its value (and leaves other objects
alone), invokes the tool named in the `function_call` — the executor
dispatches on the two registered names — and returns exactly one
`FunctionMessage` whose content is `<tool_name> response: <response>`
and whose name is the tool name. -/
theorem tool_node_dispatch :
    (∀ v, singleArgShortcut (Json.obj [("__arg1", v)]) = Except.ok v)
    ∧ (∀ fields : List (String × Json),
        fields.length ≠ 1 ∨ fields.any (fun p => p.1 == "__arg1") = false →
        singleArgShortcut (Json.obj fields) = Except.ok (Json.obj fields))
    ∧ (∀ execTool s last fc j ti r,
        s.messages.getLast? = some last → last.function_call = some fc →
        json_loads fc.arguments = some j → singleArgShortcut j = Except.ok ti →
        execTool fc.name ti = Except.ok r →
        tool_node execTool s =
          Except.ok { messages := [{ kind := MessageKind.function
                                     content := fc.name ++ " response: " ++ r
                                     name := some fc.name
                                     function_call := none }]
                      sender := none })
    ∧ (∀ tavily_run repl_run j,
        tool_executor_invoke tavily_run repl_run "tavily_search_results_json" j =
          tavily_run j)
    ∧ (∀ tavily_run repl_run code,
        tool_executor_invoke tavily_run repl_run "python_repl" (Json.str code) =
          Except.ok (python_repl repl_run code)) := by
  refine ⟨fun v => rfl, ?_, ?_, fun t p j => rfl, fun t p code => rfl⟩
  · intro fields hcase
    by_cases hlen : fields.length = 1
    · rcases hcase with hne | hany
      · exact absurd hlen hne
      · simp [singleArgShortcut, pyLen, pyContains, hlen, hany]
    · simp [singleArgShortcut, pyLen, hlen]
  · intro execTool s last fc j ti r hlast hfc hjson hshort hexec
    simp [tool_node, hlast, hfc, hjson, hshort, hexec]

/-- C2 witness: the `__arg1` shorthand, the no-shorthand case, a full
concrete dispatch through `python_repl`, and the executor equations on
the two registered tool names. -/
theorem tool_node_dispatch_witness :
    singleArgShortcut (Json.obj [("__arg1", Json.str "print(1+1)")]) =
      Except.ok (Json.str "print(1+1)")
    ∧ singleArgShortcut (Json.obj [("query", Json.str "gdp"), ("n", Json.num 5)]) =
        Except.ok (Json.obj [("query", Json.str "gdp"), ("n", Json.num 5)])
    ∧ tool_node (tool_executor_invoke oracles0.tavily_run oracles0.repl_run) callState0 =
        Except.ok toolUpdate0
    ∧ tool_executor_invoke oracles0.tavily_run oracles0.repl_run "python_repl"
        (Json.str "print(1+1)") = Except.ok (python_repl oracles0.repl_run "print(1+1)") :=
  ⟨tool_node_dispatch.1 (Json.str "print(1+1)"),
   tool_node_dispatch.2.1 [("query", Json.str "gdp"), ("n", Json.num 5)] (by simp),
   tool_node_dispatch.2.2.1
     (tool_executor_invoke oracles0.tavily_run oracles0.repl_run) callState0
     { kind := MessageKind.ai, content := "", name := none,
       function_call := some { name := "python_repl",
                               arguments := "\x7b\"__arg1\": \"print(1+1)\"\x7d" } }
     { name := "python_repl", arguments := "\x7b\"__arg1\": \"print(1+1)\"\x7d" }
     (Json.obj [("__arg1", Json.str "print(1+1)")]) (Json.str "print(1+1)")
     "Succesfully executed:\n```python\nprint(1+1)\n```\nStdout: ran print(1+1)"
     rfl rfl rfl rfl rfl,
   tool_node_dispatch.2.2.2.2 oracles0.tavily_run oracles0.repl_run "print(1+1)"⟩

/-- C6: `python_repl` returns a string on every input — the formatted
error string when execution raises, the success block wrapping the code
and the captured stdout otherwise. -/
theorem python_repl_total_string :
    (∀ repl_run code e, repl_run code = Except.error e →
        python_repl repl_run code = "Failed to execute. Error: " ++ e)
    ∧ (∀ repl_run code result, repl_run code = Except.ok result →
        python_repl repl_run code =
          "Succesfully executed:\n```python\n" ++ code ++ "\n```\nStdout: " ++ result) := by
  constructor <;> intro repl_run code x hx <;> simp [python_repl, hx]

/-- C6 witness: a raising execution and a succeeding execution, both
yielding the formatted strings. -/
theorem python_repl_total_string_witness :
    python_repl (fun _ => Except.error "ZeroDivisionError()") "1/0" =
      "Failed to execute. Error: ZeroDivisionError()"
    ∧ python_repl oracles0.repl_run "print(1+1)" =
        "Succesfully executed:\n```python\nprint(1+1)\n```\nStdout: ran print(1+1)" :=
  ⟨python_repl_total_string.1 (fun _ => Except.error "ZeroDivisionError()") "1/0"
     "ZeroDivisionError()" rfl,
   python_repl_total_string.2 oracles0.repl_run "print(1+1)" "ran print(1+1)" rfl⟩

/-- A state whose last message carries a function call with malformed
JSON arguments. -/
def badArgsState : AgentState :=
  { messages := [{ kind := MessageKind.ai, content := "", name := none,
                   function_call := some { name := "python_repl",
                                           arguments := "not json" } }]
    sender := some "Chart Generator" }

/-- C5 counterexample: the dispatcher itself raises (a
`json.JSONDecodeError` propagates out of `tool_node`) when the
function-call arguments are not valid JSON, so it is not true that the
dispatch path never raises. -/
theorem tool_node_raises_on_malformed_json :
    tool_node (tool_executor_invoke oracles0.tavily_run oracles0.repl_run) badArgsState =
      Except.error "JSONDecodeError" := by rfl

/-- C5 amended: exceptions raised during `python_repl` execution are
wrapped into a formatted error string, and whenever the arguments
deserialize to the tool's string input, dispatching to `python_repl`
returns a message without raising — for every behaviour of the
underlying REPL, including a raising one. -/
theorem dispatch_wraps_tool_errors :
    (∀ repl_run code e, repl_run code = Except.error e →
        python_repl repl_run code = "Failed to execute. Error: " ++ e)
    ∧ (∀ tavily_run repl_run s last fc code,
        s.messages.getLast? = some last → last.function_call = some fc →
        fc.name = "python_repl" → json_loads fc.arguments = some (Json.str code) →
        tool_node (tool_executor_invoke tavily_run repl_run) s =
          Except.ok { messages := [{ kind := MessageKind.function
                                     content := "python_repl response: " ++
                                       python_repl repl_run code
                                     name := some "python_repl"
                                     function_call := none }]
                      sender := none }) := by
  constructor
  · intro repl_run code e he
    simp [python_repl, he]
  · intro tavily_run repl_run s last fc code hlast hfc hname hjson
    simp [tool_node, hlast, hfc, hjson, singleArgShortcut_str, hname,
      tool_executor_invoke]

/-- A state invoking `python_repl` on code that will raise. -/
def failState0 : AgentState :=
  { messages := [{ kind := MessageKind.ai, content := "", name := none,
                   function_call := some { name := "python_repl",
                                           arguments := "\"1/0\"" } }]
    sender := some "Chart Generator" }

/-- C5 amended witness: even with a REPL that always raises, the
dispatch through `python_repl` returns a `FunctionMessage` wrapping the
formatted error string. -/
theorem dispatch_wraps_tool_errors_witness :
    python_repl (fun _ => Except.error "ZeroDivisionError()") "1/0" =
      "Failed to execute. Error: ZeroDivisionError()"
    ∧ tool_node (tool_executor_invoke oracles0.tavily_run
          (fun _ => Except.error "ZeroDivisionError()")) failState0 =
        Except.ok { messages := [{ kind := MessageKind.function
                                   content := "python_repl response: Failed to execute. Error: ZeroDivisionError()"
                                   name := some "python_repl"
                                   function_call := none }]
                    sender := none } :=
  ⟨dispatch_wraps_tool_errors.1 (fun _ => Except.error "ZeroDivisionError()") "1/0"
     "ZeroDivisionError()" rfl,
   dispatch_wraps_tool_errors.2 oracles0.tavily_run
     (fun _ => Except.error "ZeroDivisionError()") failState0
     { kind := MessageKind.ai, content := "", name := none,
       function_call := some { name := "python_repl", arguments := "\"1/0\"" } }
     { name := "python_repl", arguments := "\"1/0\"" }
     "1/0" rfl rfl rfl rfl⟩
